import Mathlib

/-!
Formal model of the two VR "object room" prototypes in this repository:
an A-Frame based workshop (globals `objectCounter` / `deleteMode`, the
function `spawnInteractiveObject`, the `interactive-object` component)
and a Three.js based `VRObjectCreator` class (`createObject`,
`deleteObject`, `grabObject`, `releaseObject`, `updateGrabbedObject`,
`handleObjectInteraction` and the controller event handlers).

Numbers are modelled as exact rationals.  Calls to `Math.random()` are
modelled by passing the sampled values as explicit arguments.
`Date.now()` is modelled by a `now` field on the state, advanced by the
external environment.  JavaScript object identity is modelled by a `ref`
key allocated from a `nextRef` counter.  DOM / rendering side effects
(menu-button materials, UI labels, notifications, console logging) that
no modelled field depends on are not part of the state.
-/

structure Vec3 where
  x : ℚ
  y : ℚ
  z : ℚ
  deriving DecidableEq, Repr

instance : Add Vec3 := ⟨fun a b => ⟨a.x + b.x, a.y + b.y, a.z + b.z⟩⟩

instance : Sub Vec3 := ⟨fun a b => ⟨a.x - b.x, a.y - b.y, a.z - b.z⟩⟩

structure Quat where
  qx : ℚ
  qy : ℚ
  qz : ℚ
  qw : ℚ
  deriving DecidableEq, Repr

namespace AFrameApp

/-- One entry of the `shapeDefinitions` array (the `geometry` string is
opaque to the interaction logic and omitted). -/
structure ShapeData where
  type : String
  name : String
  color : String
  deriving DecidableEq, Repr

/-- A spawned `a-entity` carrying the `interactive-object` component.
The DOM id attribute is the string `type ++ "-" ++ toString idNum`
(see `domId`); `idNum` records the `objectCounter` value used to build
it.  `emissive` is the material emissive attribute, `shrinking` records
whether the scale-to-zero deletion animation has been started. -/
structure AEntity where
  ref : ℕ
  shapeType : String
  idNum : ℕ
  position : Vec3
  emissive : String
  shrinking : Bool
  deriving DecidableEq, Repr

/-- The DOM id assigned in `spawnInteractiveObject`:
`` `${shapeData.type}-${objectCounter}` ``. -/
def domId (e : AEntity) : String := e.shapeType ++ "-" ++ toString e.idNum

/-- The module-level mutable state of the A-Frame variant:
`objectCounter`, `deleteMode`, `selectedObject`, the scene's interactive
entities, `performanceStats.objects`, the current time in ms and the
`setTimeout` callbacks pending from `deleteObject` (entity ref paired
with its removal deadline). -/
structure AState where
  objectCounter : ℕ
  deleteMode : Bool
  selectedObject : Option ℕ
  entities : List AEntity
  statsObjects : ℤ
  now : ℕ
  pending : List (ℕ × ℕ)
  nextRef : ℕ
  deriving DecidableEq, Repr

/-- `spawnInteractiveObject(shapeData, position)`.  Increments
`objectCounter`, builds the DOM id from the new counter value, jitters
the position by `(Math.random()-0.5)*0.3`, `Math.random()*0.2`,
`(Math.random()-0.5)*0.3` (the three sampled values are the arguments
`r1 r2 r3`), appends the entity to the scene and increments
`performanceStats.objects`.  There is no capacity check of any kind. -/
def spawnInteractiveObject (s : AState) (shapeData : ShapeData) (position : Vec3)
    (r1 r2 r3 : ℚ) : AState :=
  let counter := s.objectCounter + 1
  let spawnPos : Vec3 :=
    ⟨position.x + (r1 - 1/2) * (3/10),
     position.y + r2 * (1/5),
     position.z + (r3 - 1/2) * (3/10)⟩
  let entity : AEntity :=
    { ref := s.nextRef
      shapeType := shapeData.type
      idNum := counter
      position := spawnPos
      emissive := "#000000"
      shrinking := false }
  { s with
      objectCounter := counter
      entities := s.entities ++ [entity]
      statsObjects := s.statsObjects + 1
      nextRef := s.nextRef + 1 }

/-- `interactive-object.deleteObject`.  Starts the 300 ms shrink
animation on the entity and schedules (`setTimeout(..., 300)`) its
removal from the DOM; the entity itself stays in the scene until the
timer fires. -/
def deleteObject (s : AState) (ref : ℕ) : AState :=
  { s with
      entities := s.entities.map (fun e => if e.ref == ref then { e with shrinking := true } else e)
      pending := s.pending ++ [(ref, s.now + 300)] }

/-- The `setTimeout` callback scheduled by `deleteObject`, run by the
environment once its deadline has passed: if the entity still has a
parent it is removed from the DOM and `performanceStats.objects` is
decremented. -/
def fireRemoval (s : AState) (ref : ℕ) : AState :=
  if s.entities.any (fun e => e.ref == ref) then
    { s with
        entities := s.entities.filter (fun e => e.ref != ref)
        statsObjects := s.statsObjects - 1
        pending := s.pending.eraseP (fun pr => pr.fst == ref) }
  else
    { s with pending := s.pending.eraseP (fun pr => pr.fst == ref) }

/-- `interactive-object.onGrabStart`.  While `deleteMode` is set it
routes to `deleteObject` and returns; otherwise it highlights the
entity (emissive `#333333`) and records it in `selectedObject`. -/
def onGrabStart (s : AState) (ref : ℕ) : AState :=
  if s.deleteMode then
    deleteObject s ref
  else
    { s with
        entities := s.entities.map (fun e => if e.ref == ref then { e with emissive := "#333333" } else e)
        selectedObject := some ref }

/-- `interactive-object.onGrabEnd`: resets the emissive highlight. -/
def onGrabEnd (s : AState) (ref : ℕ) : AState :=
  { s with
      entities := s.entities.map (fun e => if e.ref == ref then { e with emissive := "#000000" } else e) }

/-- `toggleDeleteMode` flips the global boolean (the button colour and
body class updates are visual only). -/
def toggleDeleteMode (s : AState) : AState :=
  { s with deleteMode := !s.deleteMode }

end AFrameApp

namespace VRObjectCreator

/-- The pose a controller exposes through its `matrixWorld`: the
position extracted by `setFromMatrixPosition` and the orientation
extracted by `setFromRotationMatrix`. -/
structure Pose where
  position : Vec3
  quaternion : Quat
  deriving DecidableEq, Repr

/-- A spawned Three.js mesh in `this.objects` together with the
`userData` fields the interaction logic reads.  `id` is the
`Date.now()` value recorded at creation; `emissive` is the material's
emissive colour as a hex number. -/
structure Obj where
  ref : ℕ
  objectType : String
  id : ℕ
  position : Vec3
  quaternion : Quat
  scale : Vec3
  emissive : ℕ
  deriving DecidableEq, Repr

/-- The raycast target handed to `handleObjectInteraction`, classified
by its `userData.type`. -/
inductive Target where
  | menuButton (objectType : String)
  | deleteButton
  | interactable (ref : ℕ)
  deriving DecidableEq, Repr

/-- The mutable interaction state of the `VRObjectCreator` class:
`this.objects`, the current controller poses, `this.grabbedObject`,
`this.grabbedController`, `this.isDeleteMode`, `this.grabOffset`,
`this.grabRotationOffset`, plus the modelled clock (`Date.now()`) and
the reference allocator. -/
structure Creator where
  objects : List Obj
  controllers : List Pose
  grabbedObject : Option ℕ
  grabbedController : Option ℕ
  isDeleteMode : Bool
  grabOffset : Vec3
  grabRotationOffset : Quat
  now : ℕ
  nextRef : ℕ
  deriving DecidableEq, Repr

/-- `createObject(type)`.  Builds a mesh of the requested type at a
random position `((r1-0.5)*3, 1+r2*0.5, (r3-0.5)*3)` (the three
`Math.random()` samples are the arguments), tags it with
`userData.id = Date.now()`, and pushes it onto `this.objects`.  There
is no capacity check and the call cannot fail. -/
def createObject (s : Creator) (objectType : String) (r1 r2 r3 : ℚ) : Creator :=
  let object : Obj :=
    { ref := s.nextRef
      objectType := objectType
      id := s.now
      position := ⟨(r1 - 1/2) * 3, 1 + r2 * (1/2), (r3 - 1/2) * 3⟩
      quaternion := ⟨0, 0, 0, 1⟩
      scale := ⟨1, 1, 1⟩
      emissive := 0 }
  { s with
      objects := s.objects ++ [object]
      nextRef := s.nextRef + 1 }

/-- `deleteObject(object)`: `indexOf` followed by `splice(index, 1)`
removes the (unique) occurrence from `this.objects` and the scene,
synchronously, with no animation.  `grabbedObject` / `grabbedController`
are not touched. -/
def deleteObject (s : Creator) (ref : ℕ) : Creator :=
  { s with objects := s.objects.eraseP (fun o => o.ref == ref) }

/-- `grabObject(object, controller, controllerIndex)`.  Unconditionally
records the object and the controller index (the mouse path passes
`null` for both controller arguments); when a controller is present the
grab offset is recomputed as `object.position - controllerPosition`,
otherwise the previous offset is kept.  The initial rotation is stored
and the object is highlighted (emissive `0x444444`).  Note that no
release of a previously grabbed object happens here. -/
def grabObject (s : Creator) (ref : ℕ) (controllerIndex : Option ℕ) : Creator :=
  match s.objects.find? (fun o => o.ref == ref) with
  | none => s
  | some object =>
    let controller := controllerIndex.bind (fun i => s.controllers.get? i)
    let offset : Vec3 :=
      match controller with
      | some c => object.position - c.position
      | none => s.grabOffset
    { s with
        grabbedObject := some ref
        grabbedController := controllerIndex
        grabOffset := offset
        grabRotationOffset := object.quaternion
        objects := s.objects.map (fun o => if o.ref == ref then { o with emissive := 0x444444 } else o) }

/-- `releaseObject()`: if an object is grabbed, reset its emissive
highlight and clear both `grabbedObject` and `grabbedController`. -/
def releaseObject (s : Creator) : Creator :=
  match s.grabbedObject with
  | none => s
  | some ref =>
    { s with
        objects := s.objects.map (fun o => if o.ref == ref then { o with emissive := 0x000000 } else o)
        grabbedObject := none
        grabbedController := none }

/-- `onSelectEnd(event, controllerIndex)`: releases only when the
releasing controller is the one currently grabbing. -/
def onSelectEnd (s : Creator) (controllerIndex : ℕ) : Creator :=
  if s.grabbedController == some controllerIndex then releaseObject s else s

/-- `onControllerDisconnected(index)`: when the disconnecting controller
is the grabbing one, behave as if its select ended. -/
def onControllerDisconnected (s : Creator) (index : ℕ) : Creator :=
  if s.grabbedController == some index then onSelectEnd s index else s

/-- The floor clamp at the end of `updateGrabbedObject`: if the computed
position's y falls below 0.25, raise it to exactly 0.25. -/
def clampFloor (p : Vec3) : Vec3 :=
  ⟨p.x, if p.y < 1/4 then 1/4 else p.y, p.z⟩

/-- `updateGrabbedObject()`, run every animation frame: only when an
object is grabbed, the grabbing controller index is non-null and that
controller exists, copy the controller position plus `grabOffset` into
the object's position (with the floor clamp) and copy the controller's
orientation into the object's quaternion absolutely. -/
def updateGrabbedObject (s : Creator) : Creator :=
  match s.grabbedObject, s.grabbedController with
  | some ref, some ci =>
    match s.controllers.get? ci with
    | some controller =>
      { s with
          objects := s.objects.map (fun o =>
            if o.ref == ref then
              { o with
                  position := clampFloor (controller.position + s.grabOffset)
                  quaternion := controller.quaternion }
            else o) }
    | none => s
  | _, _ => s

/-- `handleObjectInteraction(object, controller, controllerIndex)`.
Menu buttons spawn (`createObject`, which needs the three random
samples `r1 r2 r3`); the delete button toggles `isDeleteMode`
(`highlightButton` / `updateDeleteMode` only restyle menu meshes and
DOM labels and are not part of the modelled state); an interactable
object is deleted while delete mode is on and grabbed otherwise. -/
def handleObjectInteraction (s : Creator) (target : Target) (controllerIndex : Option ℕ)
    (r1 r2 r3 : ℚ) : Creator :=
  match target with
  | .menuButton objectType => createObject s objectType r1 r2 r3
  | .deleteButton => { s with isDeleteMode := !s.isDeleteMode }
  | .interactable ref =>
    if s.isDeleteMode then deleteObject s ref
    else grabObject s ref controllerIndex

/-- `handleMouseInteraction(event)`: the desktop click path raycasts
from the camera and calls `handleObjectInteraction(object, null, null)`. -/
def handleMouseInteraction (s : Creator) (target : Target) (r1 r2 r3 : ℚ) : Creator :=
  handleObjectInteraction s target none r1 r2 r3

end VRObjectCreator

namespace TwoHand

/-- Modelled from the spec: the repository's source contains no two-hand
manipulation code (the A-Frame variant delegates stretching to the
external super-hands library), so the two-hand scale update of spec
section 4.3 is modelled from the spec's words.  `clamp` keeps a value
inside `[lo, hi]`. -/
def clamp (x lo hi : ℚ) : ℚ := min (max x lo) hi

/-- Modelled from the spec: `scaleFactor = clamp(distance(p0, p1) /
initialInterHandDistance, 0.1, 3.0)`; `d` is the current inter-hand
distance delivered by the spatial utilities. -/
def scaleFactor (d initialInterHandDistance : ℚ) : ℚ :=
  clamp (d / initialInterHandDistance) (1/10) 3

/-- Modelled from the spec: `newScale = initialScale * scaleFactor`
(component-wise), the per-frame scale applied while a TwoHandSession is
active. -/
def twoHandScale (initialScale : Vec3) (initialInterHandDistance d : ℚ) : Vec3 :=
  ⟨initialScale.x * scaleFactor d initialInterHandDistance,
   initialScale.y * scaleFactor d initialInterHandDistance,
   initialScale.z * scaleFactor d initialInterHandDistance⟩

end TwoHand

/-! Concrete states used to evaluate the model on explicit inputs. -/

/-- A fresh `VRObjectCreator` interaction state, as set up by the
constructor: no objects, no grab, delete mode off. -/
def baseCreator : VRObjectCreator.Creator :=
  { objects := []
    controllers := []
    grabbedObject := none
    grabbedController := none
    isDeleteMode := false
    grabOffset := ⟨0, 0, 0⟩
    grabRotationOffset := ⟨0, 0, 0, 1⟩
    now := 0
    nextRef := 0 }

/-- A sample interactable cube keyed by `n`. -/
def dummyObj (n : ℕ) : VRObjectCreator.Obj :=
  { ref := n
    objectType := "cube"
    id := 0
    position := ⟨0, 1, 0⟩
    quaternion := ⟨0, 0, 0, 1⟩
    scale := ⟨1, 1, 1⟩
    emissive := 0 }

/-- A state whose live object count is already at the spec's example
maximum of 20. -/
def fullCreator : VRObjectCreator.Creator :=
  { baseCreator with objects := (List.range 20).map dummyObj, nextRef := 20 }

/-- A controller pose at the origin. -/
def lowPose : VRObjectCreator.Pose := { position := ⟨0, 0, 0⟩, quaternion := ⟨0, 1, 0, 0⟩ }

/-- A controller pose away from the floor. -/
def okPose : VRObjectCreator.Pose := { position := ⟨1, 2, 3⟩, quaternion := ⟨0, 0, 1, 0⟩ }

/-- A state where controller 0 holds object 0 with zero grab offset and
the controller at the origin, so the computed position falls below the
floor threshold. -/
def heldLow : VRObjectCreator.Creator :=
  { baseCreator with
      objects := [{ dummyObj 0 with position := ⟨0, 2, 0⟩, emissive := 0x444444 }]
      controllers := [lowPose]
      grabbedObject := some 0
      grabbedController := some 0
      nextRef := 1 }

/-- A state where controller 0 holds object 0 well above the floor. -/
def heldOk : VRObjectCreator.Creator :=
  { baseCreator with
      objects := [{ dummyObj 0 with emissive := 0x444444 }]
      controllers := [okPose]
      grabbedObject := some 0
      grabbedController := some 0
      grabOffset := ⟨0, 1/2, 0⟩
      nextRef := 1 }

/-- A state where controller 0 already holds (highlighted) object 0 and
a second object 1 is available to grab. -/
def twoHeld : VRObjectCreator.Creator :=
  { baseCreator with
      objects := [{ dummyObj 0 with emissive := 0x444444 }, dummyObj 1]
      controllers := [lowPose, okPose]
      grabbedObject := some 0
      grabbedController := some 0
      nextRef := 2 }

/-- A fresh state with the modelled clock at 1000 ms. -/
def clock1000 : VRObjectCreator.Creator := { baseCreator with now := 1000 }

/-- A state with delete mode on and one spawnable object present. -/
def delModeCreator : VRObjectCreator.Creator :=
  { baseCreator with objects := [dummyObj 0], isDeleteMode := true, nextRef := 1 }

/-- A state with delete mode off and one object present, for the
desktop mouse path. -/
def mouseState : VRObjectCreator.Creator :=
  { baseCreator with objects := [dummyObj 0], nextRef := 1 }

/-- The initial A-Frame module state. -/
def baseAState : AFrameApp.AState :=
  { objectCounter := 0
    deleteMode := false
    selectedObject := none
    entities := []
    statsObjects := 0
    now := 0
    pending := []
    nextRef := 0 }

/-- A sample spawned A-Frame entity. -/
def dummyEntity : AFrameApp.AEntity :=
  { ref := 0
    shapeType := "box"
    idNum := 1
    position := ⟨0, 2, 0⟩
    emissive := "#000000"
    shrinking := false }

/-- An A-Frame state with delete mode on and one spawned entity. -/
def oneEntityDeleteMode : AFrameApp.AState :=
  { baseAState with
      objectCounter := 1
      deleteMode := true
      entities := [dummyEntity]
      statsObjects := 1
      nextRef := 1 }

/-! Basic lemmas about the vector operations and about updating,
erasing and filtering keyed lists, shared by the theorems below. -/

@[simp] theorem Vec3.add_def (a b : Vec3) : a + b = ⟨a.x + b.x, a.y + b.y, a.z + b.z⟩ := rfl

@[simp] theorem Vec3.sub_def (a b : Vec3) : a - b = ⟨a.x - b.x, a.y - b.y, a.z - b.z⟩ := rfl

section KeyedLists

variable {α : Type}

theorem find?_map_update (key : α → ℕ) (f : α → α) (r : ℕ) (hf : ∀ o, key (f o) = key o) :
    ∀ l : List α,
      (l.map (fun o => if key o == r then f o else o)).find? (fun o => key o == r)
        = (l.find? (fun o => key o == r)).map f
  | [] => rfl
  | a :: t => by
    by_cases h : key a = r
    · have hpa : (key a == r) = true := by simp [h]
      have hpfa : (key (f a) == r) = true := by simp [hf, h]
      simp only [List.map_cons, if_pos hpa]
      rw [List.find?_cons_of_pos (p := fun o => key o == r) _ hpfa,
        List.find?_cons_of_pos (p := fun o => key o == r) _ hpa]
      rfl
    · have hpa : ¬ ((key a == r) = true) := by simp [h]
      simp only [List.map_cons, if_neg hpa]
      rw [List.find?_cons_of_neg (p := fun o => key o == r) _ hpa,
        List.find?_cons_of_neg (p := fun o => key o == r) _ hpa]
      exact find?_map_update key f r hf t

theorem mem_map_update_of_ne (key : α → ℕ) (f : α → α) (r : ℕ) {l : List α} {p : α}
    (hp : p ∈ l) (hne : key p ≠ r) :
    p ∈ l.map (fun o => if key o == r then f o else o) := by
  refine List.mem_map.mpr ⟨p, hp, ?_⟩
  simp [hne]

theorem map_key_map_update (key : α → ℕ) (f : α → α) (r : ℕ) (hf : ∀ o, key (f o) = key o)
    (l : List α) :
    (l.map (fun o => if key o == r then f o else o)).map key = l.map key := by
  induction l with
  | nil => rfl
  | cons a t ih =>
    simp only [List.map_cons, ih]
    by_cases h : key a = r <;> simp [h, hf]

theorem not_mem_map_key_eraseP (key : α → ℕ) (r : ℕ) :
    ∀ l : List α, (l.map key).Nodup → r ∉ (l.eraseP (fun o => key o == r)).map key
  | [], _ => by simp
  | a :: t, hnd => by
    rw [List.map_cons, List.nodup_cons] at hnd
    by_cases h : key a = r
    · rw [List.eraseP_cons_of_pos (by simp [h])]
      exact h ▸ hnd.1
    · rw [List.eraseP_cons_of_neg (by simp [h])]
      intro hmem
      rw [List.map_cons] at hmem
      rcases List.mem_cons.mp hmem with h1 | h2
      · exact h h1.symm
      · exact not_mem_map_key_eraseP key r t hnd.2 h2

theorem length_eraseP_mem (key : α → ℕ) (r : ℕ) {l : List α} {o : α}
    (ho : o ∈ l) (hr : key o = r) :
    (l.eraseP (fun x => key x == r)).length + 1 = l.length := by
  have h1 := List.length_eraseP_of_mem ho (p := fun x => key x == r) (by simp [hr])
  have h2 : 1 ≤ l.length := List.length_pos.mpr (List.ne_nil_of_mem ho)
  omega

theorem not_mem_map_key_filter (key : α → ℕ) (r : ℕ) (l : List α) :
    r ∉ (l.filter (fun e => key e != r)).map key := by
  intro hmem
  rcases List.mem_map.mp hmem with ⟨e, he, hke⟩
  have h := List.of_mem_filter he
  simp [hke] at h

end KeyedLists

/-! Claim C1 -/

/-- C1: counterexample.  The code has no capacity check: with the live
object count already at the spec's example maximum of 20, a further
`createObject` call still creates a new object and the count becomes
21; no `CapacityExceeded` failure path exists (`createObject` is a
total function into the state). -/
theorem C1_counterexample :
    fullCreator.objects.length = 20 ∧
    (VRObjectCreator.createObject fullCreator "sphere" 0 0 0).objects.length = 21 :=
  ⟨rfl, rfl⟩

/-- C1 (amended): spawning never fails and performs no capacity check:
every `createObject` call, and every A-Frame `spawnInteractiveObject`
call, appends exactly one object and increases the live object count by
one whatever the current count is. -/
theorem C1_spawn_always_succeeds (s : VRObjectCreator.Creator) (ty : String) (r1 r2 r3 : ℚ)
    (t : AFrameApp.AState) (sd : AFrameApp.ShapeData) (p : Vec3) (q1 q2 q3 : ℚ) :
    (VRObjectCreator.createObject s ty r1 r2 r3).objects.length = s.objects.length + 1 ∧
    (AFrameApp.spawnInteractiveObject t sd p q1 q2 q3).entities.length = t.entities.length + 1 ∧
    (AFrameApp.spawnInteractiveObject t sd p q1 q2 q3).statsObjects = t.statsObjects + 1 := by
  refine ⟨?_, ?_, ?_⟩ <;>
    simp [VRObjectCreator.createObject, AFrameApp.spawnInteractiveObject]

/-! Claim C8 -/

/-- C8: counterexample.  `createObject` stamps `userData.id` with
`Date.now()`, so two objects created in the same millisecond (the
modelled clock does not advance between the calls) both receive id
1000: ids are neither strictly increasing nor unique. -/
theorem C8_counterexample :
    ((VRObjectCreator.createObject (VRObjectCreator.createObject clock1000 "cube" 0 0 0)
        "sphere" 0 0 0).objects.map VRObjectCreator.Obj.id) = [1000, 1000] ∧
    ¬ ((VRObjectCreator.createObject (VRObjectCreator.createObject clock1000 "cube" 0 0 0)
        "sphere" 0 0 0).objects.map VRObjectCreator.Obj.id).Nodup := by
  exact ⟨rfl, by decide⟩

/-- C8 (amended): in the A-Frame variant the spawn counter is strictly
increasing and the new id component is fresh (so ids are unique), but
in the Three.js variant the id is the current clock value `Date.now()`,
which is only non-decreasing, so ids coincide for objects created in
the same millisecond. -/
theorem C8_ids_counter_vs_clock (t : AFrameApp.AState) (sd : AFrameApp.ShapeData) (p : Vec3)
    (q1 q2 q3 : ℚ) (s : VRObjectCreator.Creator) (ty : String) (r1 r2 r3 : ℚ)
    (hinv : ∀ e ∈ t.entities, e.idNum ≤ t.objectCounter) :
    ((AFrameApp.spawnInteractiveObject t sd p q1 q2 q3).entities.map AFrameApp.AEntity.idNum)
        = (t.entities.map AFrameApp.AEntity.idNum) ++ [t.objectCounter + 1] ∧
    (AFrameApp.spawnInteractiveObject t sd p q1 q2 q3).objectCounter = t.objectCounter + 1 ∧
    (t.objectCounter + 1) ∉ (t.entities.map AFrameApp.AEntity.idNum) ∧
    ((VRObjectCreator.createObject s ty r1 r2 r3).objects.map VRObjectCreator.Obj.id)
        = (s.objects.map VRObjectCreator.Obj.id) ++ [s.now] ∧
    (VRObjectCreator.createObject s ty r1 r2 r3).now = s.now := by
  refine ⟨?_, rfl, ?_, ?_, rfl⟩
  · simp [AFrameApp.spawnInteractiveObject]
  · intro hmem
    rcases List.mem_map.mp hmem with ⟨e, he, hid⟩
    have h := hinv e he
    omega
  · simp [VRObjectCreator.createObject]

/-- Witness for C8 (amended) at a concrete state. -/
theorem C8_ids_counter_vs_clock_witness :
    (∀ e ∈ oneEntityDeleteMode.entities, e.idNum ≤ oneEntityDeleteMode.objectCounter) ∧
    ((AFrameApp.spawnInteractiveObject oneEntityDeleteMode ⟨"box", "Cube", "#4CC3D9"⟩
        ⟨0, 2, 0⟩ 0 0 0).entities.map AFrameApp.AEntity.idNum) = [1, 2] :=
  ⟨by decide,
    (C8_ids_counter_vs_clock oneEntityDeleteMode ⟨"box", "Cube", "#4CC3D9"⟩ ⟨0, 2, 0⟩ 0 0 0
      clock1000 "cube" 0 0 0 (by decide)).1⟩

/-! Claim C2 -/

/-- C2: while delete mode is active, a grab-start on a spawned object
deletes it instead of grabbing it: in the Three.js variant
`handleObjectInteraction` removes the object from the live list and the
empty grabbed-object reference stays empty (and the grabbing-controller
reference is untouched); in the A-Frame variant `onGrabStart` routes to
`deleteObject` without touching `selectedObject`, scheduling the 300 ms
removal of the object. -/
theorem C2_delete_mode_routes_grab_to_delete
    (s : VRObjectCreator.Creator) (ref : ℕ) (ci : Option ℕ) (r1 r2 r3 : ℚ)
    (t : AFrameApp.AState) (er : ℕ)
    (hdm : s.isDeleteMode = true) (hnone : s.grabbedObject = none)
    (hnd : (s.objects.map VRObjectCreator.Obj.ref).Nodup)
    (htdm : t.deleteMode = true) :
    (VRObjectCreator.handleObjectInteraction s (.interactable ref) ci r1 r2 r3).grabbedObject
        = none ∧
    (VRObjectCreator.handleObjectInteraction s (.interactable ref) ci r1 r2 r3).grabbedController
        = s.grabbedController ∧
    ref ∉ ((VRObjectCreator.handleObjectInteraction s (.interactable ref) ci r1 r2 r3).objects.map
        VRObjectCreator.Obj.ref) ∧
    (AFrameApp.onGrabStart t er).selectedObject = t.selectedObject ∧
    (er, t.now + 300) ∈ (AFrameApp.onGrabStart t er).pending := by
  have hroute : VRObjectCreator.handleObjectInteraction s (.interactable ref) ci r1 r2 r3
      = VRObjectCreator.deleteObject s ref := by
    simp [VRObjectCreator.handleObjectInteraction, hdm]
  have haroute : AFrameApp.onGrabStart t er = AFrameApp.deleteObject t er := by
    simp [AFrameApp.onGrabStart, htdm]
  refine ⟨?_, ?_, ?_, ?_, ?_⟩
  · rw [hroute]; exact hnone
  · rw [hroute]; rfl
  · rw [hroute]
    exact not_mem_map_key_eraseP VRObjectCreator.Obj.ref ref s.objects hnd
  · rw [haroute]; rfl
  · rw [haroute]
    simp [AFrameApp.deleteObject]

/-- Witness for C2 at a concrete state: delete mode on, nothing held,
one object present in each variant. -/
theorem C2_delete_mode_routes_grab_to_delete_witness :
    delModeCreator.isDeleteMode = true ∧
    delModeCreator.grabbedObject = none ∧
    oneEntityDeleteMode.deleteMode = true ∧
    (VRObjectCreator.handleObjectInteraction delModeCreator (.interactable 0) none 0 0 0).grabbedObject
      = none :=
  ⟨rfl, rfl, rfl,
    (C2_delete_mode_routes_grab_to_delete delModeCreator 0 none 0 0 0 oneEntityDeleteMode 0
      rfl rfl (by decide) rfl).1⟩

/-! Claims C3 and C4: the single-hand per-frame update. -/

/-- Shared computation: when an object is grabbed by an existing
controller, the per-frame update rewrites it to the controller position
plus grab offset (floor-clamped) with the controller orientation copied
absolutely, leaving its other fields alone. -/
theorem updateGrabbedObject_find (s : VRObjectCreator.Creator) (ref ci : ℕ)
    (c : VRObjectCreator.Pose) (o : VRObjectCreator.Obj)
    (hgo : s.grabbedObject = some ref) (hgc : s.grabbedController = some ci)
    (hc : s.controllers.get? ci = some c)
    (ho : s.objects.find? (fun x => x.ref == ref) = some o) :
    ((VRObjectCreator.updateGrabbedObject s).objects.find? (fun x => x.ref == ref))
      = some { o with
          position := VRObjectCreator.clampFloor (c.position + s.grabOffset)
          quaternion := c.quaternion } := by
  obtain ⟨objs, ctrls, go, gc, dm, off, roff, n, nr⟩ := s
  have hgo' : go = some ref := hgo
  have hgc' : gc = some ci := hgc
  subst hgo' hgc'
  unfold VRObjectCreator.updateGrabbedObject
  simp only
  rw [show ctrls.get? ci = some c from hc]
  have h1 := find?_map_update VRObjectCreator.Obj.ref
    (fun x => { x with
        position := VRObjectCreator.clampFloor (c.position + off)
        quaternion := c.quaternion }) ref (fun _ => rfl) objs
  refine Eq.trans h1 ?_
  rw [show objs.find? (fun x => x.ref == ref) = some o from ho]
  rfl

/-- C3: counterexample.  With the controller at the origin and a zero
grab offset, the spec's formula gives position `(0, 0, 0)`, but the
update leaves the object at `(0, 1/4, 0)` because of the floor clamp:
the new position does not always equal source position plus grab-time
offset. -/
theorem C3_counterexample :
    (heldLow.controllers.get? 0).map VRObjectCreator.Pose.position = some ⟨0, 0, 0⟩ ∧
    heldLow.grabOffset = ⟨0, 0, 0⟩ ∧
    ((VRObjectCreator.updateGrabbedObject heldLow).objects.map VRObjectCreator.Obj.position)
      = [⟨0, 1/4, 0⟩] ∧
    (⟨0, 1/4, 0⟩ : Vec3) ≠ (⟨0, 0, 0⟩ : Vec3) + (⟨0, 0, 0⟩ : Vec3) := by
  refine ⟨rfl, rfl, ?_, ?_⟩
  · norm_num [VRObjectCreator.updateGrabbedObject, heldLow, baseCreator, lowPose, dummyObj,
      VRObjectCreator.clampFloor, Vec3.add_def]
  · intro hcontra
    have hy := congrArg Vec3.y hcontra
    simp only [Vec3.add_def] at hy
    norm_num at hy

/-- C3 (amended): for every per-frame update of a singly held object,
the new x and z coordinates equal the controller's current ones plus
the grab-time offset, the new y does too unless the sum falls below
0.25 — in which case y is clamped up to exactly 0.25 — and the new
orientation is the controller orientation copied absolutely. -/
theorem C3_single_hand_update (s : VRObjectCreator.Creator) (ref ci : ℕ)
    (c : VRObjectCreator.Pose) (o : VRObjectCreator.Obj)
    (hgo : s.grabbedObject = some ref) (hgc : s.grabbedController = some ci)
    (hc : s.controllers.get? ci = some c)
    (ho : s.objects.find? (fun x => x.ref == ref) = some o) :
    ((VRObjectCreator.updateGrabbedObject s).objects.find? (fun x => x.ref == ref))
      = some { o with
          position := ⟨c.position.x + s.grabOffset.x,
                       if c.position.y + s.grabOffset.y < 1/4 then 1/4
                       else c.position.y + s.grabOffset.y,
                       c.position.z + s.grabOffset.z⟩
          quaternion := c.quaternion } := by
  have h := updateGrabbedObject_find s ref ci c o hgo hgc hc ho
  simpa [VRObjectCreator.clampFloor] using h

/-- Witness for C3 (amended) at a concrete state well above the floor. -/
theorem C3_single_hand_update_witness :
    heldOk.grabbedObject = some 0 ∧
    heldOk.controllers.get? 0 = some okPose ∧
    ((VRObjectCreator.updateGrabbedObject heldOk).objects.find? (fun x => x.ref == 0))
      = some { { dummyObj 0 with emissive := 0x444444 } with
          position := ⟨okPose.position.x + heldOk.grabOffset.x,
                       if okPose.position.y + heldOk.grabOffset.y < 1/4 then 1/4
                       else okPose.position.y + heldOk.grabOffset.y,
                       okPose.position.z + heldOk.grabOffset.z⟩
          quaternion := okPose.quaternion } :=
  ⟨rfl, rfl,
    C3_single_hand_update heldOk 0 0 okPose { dummyObj 0 with emissive := 0x444444 }
      rfl rfl rfl rfl⟩

/-- C4: after every single-hand per-frame transform update the held
object's y coordinate is at least 0.25; it is exactly 0.25 whenever the
computed position would fall below, and the computed value otherwise. -/
theorem C4_floor_clamp (s : VRObjectCreator.Creator) (ref ci : ℕ)
    (c : VRObjectCreator.Pose) (o : VRObjectCreator.Obj)
    (hgo : s.grabbedObject = some ref) (hgc : s.grabbedController = some ci)
    (hc : s.controllers.get? ci = some c)
    (ho : s.objects.find? (fun x => x.ref == ref) = some o) :
    ∃ u, ((VRObjectCreator.updateGrabbedObject s).objects.find? (fun x => x.ref == ref)) = some u ∧
      1/4 ≤ u.position.y ∧
      (c.position.y + s.grabOffset.y < 1/4 → u.position.y = 1/4) ∧
      (¬ c.position.y + s.grabOffset.y < 1/4 →
        u.position.y = c.position.y + s.grabOffset.y) := by
  refine ⟨_, updateGrabbedObject_find s ref ci c o hgo hgc hc ho, ?_, ?_, ?_⟩
  · dsimp only [VRObjectCreator.clampFloor, Vec3.add_def]
    by_cases h : c.position.y + s.grabOffset.y < 1/4
    · rw [if_pos h]
    · rw [if_neg h]
      exact not_lt.mp h
  · intro h
    dsimp only [VRObjectCreator.clampFloor, Vec3.add_def]
    rw [if_pos h]
  · intro h
    dsimp only [VRObjectCreator.clampFloor, Vec3.add_def]
    rw [if_neg h]

/-- Witness for C4 at a concrete state whose computed position falls
below the floor. -/
theorem C4_floor_clamp_witness :
    heldLow.grabbedObject = some 0 ∧
    (∃ u, ((VRObjectCreator.updateGrabbedObject heldLow).objects.find? (fun x => x.ref == 0))
        = some u ∧
      1/4 ≤ u.position.y ∧
      (lowPose.position.y + heldLow.grabOffset.y < 1/4 → u.position.y = 1/4) ∧
      (¬ lowPose.position.y + heldLow.grabOffset.y < 1/4 →
        u.position.y = lowPose.position.y + heldLow.grabOffset.y)) :=
  ⟨rfl,
    C4_floor_clamp heldLow 0 0 lowPose
      { dummyObj 0 with position := ⟨0, 2, 0⟩, emissive := 0x444444 }
      rfl rfl rfl rfl⟩

/-! Claim C5: the two-hand scale update (spec-modelled). -/

theorem clamp_le_right (x lo hi : ℚ) : TwoHand.clamp x lo hi ≤ hi :=
  min_le_right _ _

theorem le_clamp_left (x lo hi : ℚ) (h : lo ≤ hi) : lo ≤ TwoHand.clamp x lo hi :=
  le_min (le_max_right _ _) h

theorem clamp_mono (lo hi : ℚ) {a b : ℚ} (h : a ≤ b) :
    TwoHand.clamp a lo hi ≤ TwoHand.clamp b lo hi :=
  min_le_min (max_le_max h le_rfl) le_rfl

theorem scaleFactor_mono {d1 d2 D : ℚ} (hD : 0 < D) (h : d1 ≤ d2) :
    TwoHand.scaleFactor d1 D ≤ TwoHand.scaleFactor d2 D :=
  clamp_mono _ _ ((div_le_div_iff_of_pos_right hD).mpr h)

/-- C5: during two-hand manipulation the applied scale is the initial
scale times `clamp(d / initialInterHandDistance, 0.1, 3.0)`
component-wise, it is monotonically non-decreasing in the current
inter-hand distance `d`, and it always stays within `[0.1, 3.0]` times
the initial scale. -/
theorem C5_two_hand_scale (s0 : Vec3) (D d d1 d2 : ℚ)
    (hD : 0 < D) (hx : 0 ≤ s0.x) (hy : 0 ≤ s0.y) (hz : 0 ≤ s0.z) (h12 : d1 ≤ d2) :
    TwoHand.twoHandScale s0 D d =
      ⟨s0.x * TwoHand.clamp (d / D) (1/10) 3,
       s0.y * TwoHand.clamp (d / D) (1/10) 3,
       s0.z * TwoHand.clamp (d / D) (1/10) 3⟩ ∧
    ((TwoHand.twoHandScale s0 D d1).x ≤ (TwoHand.twoHandScale s0 D d2).x ∧
     (TwoHand.twoHandScale s0 D d1).y ≤ (TwoHand.twoHandScale s0 D d2).y ∧
     (TwoHand.twoHandScale s0 D d1).z ≤ (TwoHand.twoHandScale s0 D d2).z) ∧
    ((1/10) * s0.x ≤ (TwoHand.twoHandScale s0 D d).x ∧
      (TwoHand.twoHandScale s0 D d).x ≤ 3 * s0.x) ∧
    ((1/10) * s0.y ≤ (TwoHand.twoHandScale s0 D d).y ∧
      (TwoHand.twoHandScale s0 D d).y ≤ 3 * s0.y) ∧
    ((1/10) * s0.z ≤ (TwoHand.twoHandScale s0 D d).z ∧
      (TwoHand.twoHandScale s0 D d).z ≤ 3 * s0.z) := by
  have hmono := scaleFactor_mono hD h12
  have hlo : (1/10 : ℚ) ≤ TwoHand.scaleFactor d D :=
    le_clamp_left _ _ _ (by norm_num)
  have hhi : TwoHand.scaleFactor d D ≤ 3 := clamp_le_right _ _ _
  refine ⟨rfl, ⟨?_, ?_, ?_⟩, ⟨?_, ?_⟩, ⟨?_, ?_⟩, ⟨?_, ?_⟩⟩
  · exact mul_le_mul_of_nonneg_left hmono hx
  · exact mul_le_mul_of_nonneg_left hmono hy
  · exact mul_le_mul_of_nonneg_left hmono hz
  · calc (1/10 : ℚ) * s0.x = s0.x * (1/10) := mul_comm _ _
      _ ≤ s0.x * TwoHand.scaleFactor d D := mul_le_mul_of_nonneg_left hlo hx
  · calc s0.x * TwoHand.scaleFactor d D ≤ s0.x * 3 := mul_le_mul_of_nonneg_left hhi hx
      _ = 3 * s0.x := mul_comm _ _
  · calc (1/10 : ℚ) * s0.y = s0.y * (1/10) := mul_comm _ _
      _ ≤ s0.y * TwoHand.scaleFactor d D := mul_le_mul_of_nonneg_left hlo hy
  · calc s0.y * TwoHand.scaleFactor d D ≤ s0.y * 3 := mul_le_mul_of_nonneg_left hhi hy
      _ = 3 * s0.y := mul_comm _ _
  · calc (1/10 : ℚ) * s0.z = s0.z * (1/10) := mul_comm _ _
      _ ≤ s0.z * TwoHand.scaleFactor d D := mul_le_mul_of_nonneg_left hlo hz
  · calc s0.z * TwoHand.scaleFactor d D ≤ s0.z * 3 := mul_le_mul_of_nonneg_left hhi hz
      _ = 3 * s0.z := mul_comm _ _

/-- Witness for C5 at the spec's own scenario numbers: initial distance
0.3, current distance 1.0, initial scale `(2, 1, 3)`. -/
theorem C5_two_hand_scale_witness :
    (0 : ℚ) < 3/10 ∧
    (TwoHand.twoHandScale ⟨2, 1, 3⟩ (3/10) 1).x ≤ 3 * (⟨2, 1, 3⟩ : Vec3).x :=
  ⟨by norm_num,
    (C5_two_hand_scale ⟨2, 1, 3⟩ (3/10) 1 1 2 (by norm_num) (by norm_num) (by norm_num)
      (by norm_num) (by norm_num)).2.2.1.2⟩

/-! Claim C6 -/

/-- C6: counterexample.  While controller 0 already holds (highlighted)
object 0, a grab of object 1 by controller 1 overwrites the held-object
reference with no intervening release: object 0's emissive highlight is
still set afterwards (`releaseObject`, which resets it, was never
invoked), so the grab-end side effect did not happen. -/
theorem C6_counterexample :
    twoHeld.grabbedObject = some 0 ∧
    (VRObjectCreator.handleObjectInteraction twoHeld (.interactable 1) (some 1) 0 0 0).grabbedObject
      = some 1 ∧
    ((VRObjectCreator.handleObjectInteraction twoHeld (.interactable 1) (some 1) 0 0 0).objects.map
        VRObjectCreator.Obj.emissive) = [0x444444, 0x444444] :=
  ⟨rfl, rfl, rfl⟩

/-- C6 (amended): `grabObject` overwrites the held-object and
grabbing-controller references directly, whatever was held before, and
leaves every other object — in particular a previously held one and its
emissive highlight — untouched: no grab-end side effect is emitted
(only an explicit `releaseObject` resets the highlight). -/
theorem C6_grab_overwrites_without_release
    (s : VRObjectCreator.Creator) (ref : ℕ) (ci : Option ℕ) (o : VRObjectCreator.Obj)
    (ho : s.objects.find? (fun x => x.ref == ref) = some o) :
    (VRObjectCreator.grabObject s ref ci).grabbedObject = some ref ∧
    (VRObjectCreator.grabObject s ref ci).grabbedController = ci ∧
    ∀ p ∈ s.objects, p.ref ≠ ref → p ∈ (VRObjectCreator.grabObject s ref ci).objects := by
  unfold VRObjectCreator.grabObject
  rw [ho]
  refine ⟨rfl, rfl, ?_⟩
  intro p hp hne
  exact mem_map_update_of_ne VRObjectCreator.Obj.ref _ ref hp hne

/-- Witness for C6 (amended) at a concrete state where another object
is already held. -/
theorem C6_grab_overwrites_without_release_witness :
    twoHeld.objects.find? (fun x => x.ref == 1) = some (dummyObj 1) ∧
    (VRObjectCreator.grabObject twoHeld 1 (some 1)).grabbedObject = some 1 :=
  ⟨rfl, (C6_grab_overwrites_without_release twoHeld 1 (some 1) (dummyObj 1) rfl).1⟩

/-! Claim C7 -/

/-- C7: counterexample.  Immediately after the A-Frame
`interactive-object.deleteObject` returns, the entity is still among
the scene's interactive entities (so still eligible for grab and
collision handling) and the object count is unchanged; only a removal
at `now + 300` ms has been scheduled — logical deletion is deferred to
the timer, not immediate. -/
theorem C7_counterexample :
    ((AFrameApp.deleteObject oneEntityDeleteMode 0).entities.map AFrameApp.AEntity.ref) = [0] ∧
    (AFrameApp.deleteObject oneEntityDeleteMode 0).statsObjects = 1 ∧
    (AFrameApp.deleteObject oneEntityDeleteMode 0).pending = [(0, 300)] :=
  ⟨rfl, rfl, rfl⟩

/-- C7 (amended): the Three.js `deleteObject` removes the object from
the live list synchronously before returning, with no animation at all;
the A-Frame `deleteObject` instead starts a 300 ms shrink animation and
schedules the DOM removal for 300 ms later — the entity stays in the
scene (still grab-eligible) until that timer callback (`fireRemoval`)
runs, which then removes it. -/
theorem C7_delete_timing (s : VRObjectCreator.Creator) (ref : ℕ) (o : VRObjectCreator.Obj)
    (t : AFrameApp.AState) (r : ℕ)
    (hnd : (s.objects.map VRObjectCreator.Obj.ref).Nodup)
    (ho : o ∈ s.objects) (href : o.ref = ref)
    (hr : r ∈ t.entities.map AFrameApp.AEntity.ref) :
    ref ∉ ((VRObjectCreator.deleteObject s ref).objects.map VRObjectCreator.Obj.ref) ∧
    (VRObjectCreator.deleteObject s ref).objects.length + 1 = s.objects.length ∧
    r ∈ ((AFrameApp.deleteObject t r).entities.map AFrameApp.AEntity.ref) ∧
    (r, t.now + 300) ∈ (AFrameApp.deleteObject t r).pending ∧
    r ∉ ((AFrameApp.fireRemoval (AFrameApp.deleteObject t r) r).entities.map
        AFrameApp.AEntity.ref) := by
  have hmapref : ((AFrameApp.deleteObject t r).entities.map AFrameApp.AEntity.ref)
      = t.entities.map AFrameApp.AEntity.ref := by
    exact map_key_map_update AFrameApp.AEntity.ref
      (fun e => { e with shrinking := true }) r (fun _ => rfl) t.entities
  have hmem : r ∈ ((AFrameApp.deleteObject t r).entities.map AFrameApp.AEntity.ref) := by
    rw [hmapref]; exact hr
  refine ⟨?_, ?_, hmem, ?_, ?_⟩
  · exact not_mem_map_key_eraseP VRObjectCreator.Obj.ref ref s.objects hnd
  · exact length_eraseP_mem VRObjectCreator.Obj.ref ref ho href
  · simp [AFrameApp.deleteObject]
  · have hany : ((AFrameApp.deleteObject t r).entities.any (fun e => e.ref == r)) = true := by
      rcases List.mem_map.mp hmem with ⟨e, he, hke⟩
      simp only [List.any_eq_true]
      exact ⟨e, he, by simp [hke]⟩
    unfold AFrameApp.fireRemoval
    rw [if_pos hany]
    exact not_mem_map_key_filter AFrameApp.AEntity.ref r _

/-- Witness for C7 (amended) at concrete states. -/
theorem C7_delete_timing_witness :
    (twoHeld.objects.map VRObjectCreator.Obj.ref).Nodup ∧
    0 ∉ ((VRObjectCreator.deleteObject twoHeld 0).objects.map VRObjectCreator.Obj.ref) :=
  ⟨by decide,
    (C7_delete_timing twoHeld 0 { dummyObj 0 with emissive := 0x444444 } oneEntityDeleteMode 0
      (by decide) (by simp [twoHeld, baseCreator]) rfl (by decide)).1⟩

/-! Claim C9 -/

/-- C9: when the controller currently holding an object disconnects,
the object is released: the grabbed-object and grabbing-controller
references both become empty and the object's emissive highlight is
reset, so no grab session references a disconnected controller.
(In every reachable state a non-empty `grabbedController` comes with a
non-empty `grabbedObject`, since only `grabObject` sets it and only
`releaseObject` — which clears both — resets it.) -/
theorem C9_disconnect_releases (s : VRObjectCreator.Creator) (idx ref : ℕ)
    (o : VRObjectCreator.Obj)
    (hgc : s.grabbedController = some idx) (hgo : s.grabbedObject = some ref)
    (ho : s.objects.find? (fun x => x.ref == ref) = some o) :
    (VRObjectCreator.onControllerDisconnected s idx).grabbedObject = none ∧
    (VRObjectCreator.onControllerDisconnected s idx).grabbedController = none ∧
    ((VRObjectCreator.onControllerDisconnected s idx).objects.find? (fun x => x.ref == ref))
      = some { o with emissive := 0 } := by
  obtain ⟨objs, ctrls, go, gc, dm, off, roff, n, nr⟩ := s
  have hgc' : gc = some idx := hgc
  have hgo' : go = some ref := hgo
  subst hgc' hgo'
  unfold VRObjectCreator.onControllerDisconnected VRObjectCreator.onSelectEnd
    VRObjectCreator.releaseObject
  simp only [beq_self_eq_true, if_true]
  refine ⟨trivial, trivial, ?_⟩
  have h1 := find?_map_update VRObjectCreator.Obj.ref
    (fun x => { x with emissive := 0x000000 }) ref (fun _ => rfl) objs
  refine Eq.trans h1 ?_
  rw [show objs.find? (fun x => x.ref == ref) = some o from ho]
  rfl

/-- Witness for C9 at a concrete state. -/
theorem C9_disconnect_releases_witness :
    heldOk.grabbedController = some 0 ∧
    (VRObjectCreator.onControllerDisconnected heldOk 0).grabbedObject = none :=
  ⟨rfl,
    (C9_disconnect_releases heldOk 0 0 { dummyObj 0 with emissive := 0x444444 }
      rfl rfl rfl).1⟩

/-! Claim C10 -/

/-- When the grabbing-controller index is null, the per-frame update is
the identity: the guard in `updateGrabbedObject` requires a non-null
`grabbedController`. -/
theorem updateGrabbedObject_none (u : VRObjectCreator.Creator)
    (hu : u.grabbedController = none) :
    VRObjectCreator.updateGrabbedObject u = u := by
  obtain ⟨objs, ctrls, go, gc, dm, off, roff, n, nr⟩ := u
  have hgc : gc = none := hu
  subst hgc
  cases go <;> rfl

/-- C10: an object grabbed through the desktop mouse path is recorded
with a `null` grabbing-controller index, and the per-frame
`updateGrabbedObject` — which requires a non-null controller index —
leaves any state with a `null` grabbing-controller completely
unchanged, so a mouse-grabbed object's position, rotation and scale
stay as they were on every frame until release. -/
theorem C10_mouse_grab_inert (s : VRObjectCreator.Creator) (ref : ℕ) (r1 r2 r3 : ℚ)
    (o : VRObjectCreator.Obj)
    (hdm : s.isDeleteMode = false)
    (ho : s.objects.find? (fun x => x.ref == ref) = some o) :
    (VRObjectCreator.handleMouseInteraction s (.interactable ref) r1 r2 r3).grabbedObject
        = some ref ∧
    (VRObjectCreator.handleMouseInteraction s (.interactable ref) r1 r2 r3).grabbedController
        = none ∧
    ∀ u : VRObjectCreator.Creator, u.grabbedController = none →
      VRObjectCreator.updateGrabbedObject u = u := by
  have hroute : VRObjectCreator.handleMouseInteraction s (.interactable ref) r1 r2 r3
      = VRObjectCreator.grabObject s ref none := by
    simp [VRObjectCreator.handleMouseInteraction, VRObjectCreator.handleObjectInteraction, hdm]
  refine ⟨?_, ?_, fun u hu => updateGrabbedObject_none u hu⟩
  · rw [hroute]
    unfold VRObjectCreator.grabObject
    rw [ho]
  · rw [hroute]
    unfold VRObjectCreator.grabObject
    rw [ho]

/-- Witness for C10 at a concrete state. -/
theorem C10_mouse_grab_inert_witness :
    mouseState.isDeleteMode = false ∧
    (VRObjectCreator.handleMouseInteraction mouseState (.interactable 0) 0 0 0).grabbedController
      = none :=
  ⟨rfl, (C10_mouse_grab_inert mouseState 0 0 0 0 (dummyObj 0) rfl rfl).2.1⟩
